import Mathlib

/-!
Shallow embedding of the Ghost Offer persistence adapter
(`OfferRepository`, src/unnamed/part_000) and the admin-x-settings
UI service provider (`ServiceProvider.tsx`).

Storage and network effects are made explicit: `save` returns the
ordered list of collaborator calls it performs (domain-event dispatch,
external coupon creation, row insert, row update) together with an
optional propagated error from the external coupon-creation call.
-/

namespace Ghost

/-- A value appearing in an effective storage query: the incoming filter
values are strings, the `status` transformer rewrites them to booleans. -/
inductive QVal where
  | str (s : String)
  | bool (b : Bool)
deriving Repr, DecidableEq

/-- A flat structured query / filter: a list of (key, value) pairs. -/
abbrev Query := List (String × QVal)

/-- Modelled from the collaborator contract of `mapQuery`
(`@nexes/mongo-utils`, an external package): applies `fn value key` to
every entry of the query; entries for which `fn` returns nothing are
dropped, otherwise the returned (key, value) pair replaces the entry. -/
def mapQuery (input : Query) (fn : QVal → String → Option (String × QVal)) : Query :=
  input.filterMap (fun e => fn e.2 e.1)

/-- Modelled from the collaborator contract of `mapKeyValues`
(`@nexes/mongo-utils`, an external package): renames key `fromKey` to
`toKey` and rewrites the entry value through the `values` from/to table
(values not in the table pass through unchanged); entries under other
keys are untouched. -/
def mapKeyValues (fromKey toKey : String) (values : List (QVal × QVal))
    (input : Query) : Query :=
  input.map (fun e =>
    if e.1 == fromKey then
      (toKey, ((values.find? (fun p => p.1 == e.2)).map Prod.snd).getD e.2)
    else e)

/-- `statusTransformer` (part_000 lines 8–20): key `status` becomes
`active`; value `active` becomes `true`, `archived` becomes `false`. -/
def statusTransformer : Query → Query :=
  mapKeyValues "status" "active"
    [(QVal.str "active", QVal.bool true), (QVal.str "archived", QVal.bool false)]

/-- `rejectNonStatusTransformer` (part_000 lines 22–30): keeps only the
`status` entries of the query, unchanged. -/
def rejectNonStatusTransformer (input : Query) : Query :=
  mapQuery input (fun value key =>
    if key != "status" then none
    else some (key, value))

/-- `mongoTransformer` (part_000 line 32):
`flowRight(statusTransformer, rejectNonStatusTransformer)`, i.e. first
reject the non-status keys, then rewrite the status key. This is the
effective query reaching the storage layer in `getAll`. -/
def mongoTransformer (input : Query) : Query :=
  statusTransformer (rejectNonStatusTransformer input)

/-- The tier association carried by a domain offer (`offer.tier`). -/
structure Tier where
  id : String
  name : String
deriving Repr, DecidableEq

/-- The duration value object of a domain offer
(`offer.duration.value.type`, `offer.duration.value.months`). -/
structure OfferDuration where
  dtype : String
  months : Option Int
deriving Repr, DecidableEq

/-- Modelled from the spec: the `Offer` domain model
(`../domain/models/Offer`) is not under src/. Per the spec's data model
the entity carries identity, name, unique code, display strings, a
discount shape (`type`/`amount`/`currency`), cadence, duration, tier
association, status, a derived redemption count and the external
`stripe_coupon_id`. Value-object wrappers (`.value`) are flattened to
plain fields. `isNew`, `oldCode` and `codeChanged` are the lifecycle
flags `save` reads. -/
structure Offer where
  id : String
  name : String
  code : String
  oldCode : Option String
  codeChanged : Bool
  isNew : Bool
  displayTitle : String
  displayDescription : String
  type : String
  amount : Int
  cadence : String
  currency : Option String
  duration : OfferDuration
  redemptionCount : Int
  stripe_coupon_id : Option String
  status : String
  tier : Tier
deriving Repr, DecidableEq

/-- Modelled from the spec: lifecycle well-formedness of the missing
`Offer` domain model. The previously loaded code is absent exactly for
new offers ("previous code is undefined/absent for new offers"), and
`codeChanged` holds exactly when an existing offer's code differs from
its previously loaded code ("A code change on an existing offer raises a
domain event"). -/
def Offer.WF (o : Offer) : Prop :=
  (o.oldCode = none ↔ o.isNew = true) ∧
  (o.codeChanged = true ↔ (o.isNew = false ∧ o.oldCode ≠ some o.code))

/-- The payload of `OfferCodeChangeEvent.create` (part_000 lines 187–191). -/
structure OfferCodeChangeEvent where
  offerId : String
  previousCode : Option String
  currentCode : String
deriving Repr, DecidableEq

/-- The row data object built by `save` (part_000 lines 170–184).
`stripe_coupon_id = none` models the field being absent from the object
(not written); it is assigned only on the new-offer path. -/
structure RowData where
  id : String
  name : String
  code : String
  portal_title : String
  portal_description : String
  discount_type : String
  discount_amount : Int
  interval : String
  product_id : String
  duration : String
  duration_in_months : Option Int
  currency : Option String
  active : Bool
  stripe_coupon_id : Option String := none
deriving Repr, DecidableEq

/-- The Stripe coupon-creation params built by `save`
(part_000 lines 196–211); optional fields model fields absent unless
assigned. -/
structure CouponParams where
  name : String
  duration : String
  duration_in_months : Option Int := none
  percent_off : Option Int := none
  amount_off : Option Int := none
  currency : Option String := none
deriving Repr, DecidableEq

/-- The result of `stripeAPIService.createCoupon` (`{id}`). -/
structure CouponData where
  id : String
deriving Repr, DecidableEq

/-- One collaborator call performed by `save`, in order. -/
inductive Effect where
  | dispatch (ev : OfferCodeChangeEvent)
  | createCoupon (p : CouponParams)
  | add (row : RowData)
  | edit (row : RowData) (id : String)
deriving Repr, DecidableEq

def Effect.isDispatch : Effect → Bool
  | .dispatch _ => true
  | _ => false

def Effect.isCreateCoupon : Effect → Bool
  | .createCoupon _ => true
  | _ => false

def Effect.isAdd : Effect → Bool
  | .add _ => true
  | _ => false

def Effect.isEdit : Effect → Bool
  | .edit _ _ => true
  | _ => false

/-- The `data` object of `save` (part_000 lines 170–184), translated
field by field from the source. -/
def rowDataOf (offer : Offer) : RowData :=
  { id := offer.id
    name := offer.name
    code := offer.code
    portal_title := offer.displayTitle
    portal_description := offer.displayDescription
    discount_type := if offer.type == "fixed" then "amount" else "percent"
    discount_amount := offer.amount
    interval := offer.cadence
    product_id := offer.tier.id
    duration := offer.duration.dtype
    duration_in_months :=
      if offer.duration.dtype == "repeating" then offer.duration.months else none
    currency := offer.currency
    active := offer.status == "active"
    stripe_coupon_id := none }

/-- The `coupon` params object of `save` (part_000 lines 196–211):
base name/duration, `duration_in_months` added for repeating durations,
then `percent_off` for percent offers or `amount_off` + `currency` for
fixed offers. -/
def couponParamsOf (offer : Offer) : CouponParams :=
  let c0 : CouponParams := { name := offer.name, duration := offer.duration.dtype }
  let c1 := if offer.duration.dtype == "repeating" then
      { c0 with duration_in_months := offer.duration.months }
    else c0
  if offer.type == "percent" then
    { c1 with percent_off := some offer.amount }
  else
    { c1 with amount_off := some offer.amount, currency := offer.currency }

/-- `OfferRepository.save` (part_000 lines 168–219) as a trace of
collaborator calls. `stripe` models `stripeAPIService.createCoupon`; its
failure is the propagated error in the second component, in which case
the row insert does not happen. -/
def save {ε : Type} (offer : Offer)
    (stripe : CouponParams → Except ε CouponData) :
    List Effect × Option ε :=
  let data := rowDataOf offer
  let evts : List Effect :=
    if offer.codeChanged || offer.isNew then
      [Effect.dispatch
        { offerId := offer.id
          previousCode := offer.oldCode
          currentCode := offer.code }]
    else []
  if offer.isNew then
    let coupon := couponParamsOf offer
    match stripe coupon with
    | Except.error e => (evts ++ [Effect.createCoupon coupon], some e)
    | Except.ok couponData =>
        (evts ++ [Effect.createCoupon coupon,
                  Effect.add { data with stripe_coupon_id := some couponData.id }],
         none)
  else
    (evts ++ [Effect.edit data data.id], none)

/-- The joined product row (`json.product`) of a row loaded
`withRelated: ['product']`. -/
structure ProductRow where
  id : String
  name : String
deriving Repr, DecidableEq

/-- A stored offer row as `model.toJSON()` presents it to `mapToOffer`
(part_000 lines 101–127): the row columns plus the joined product row. -/
structure OfferRowJSON where
  id : String
  name : String
  code : String
  portal_title : String
  portal_description : String
  discount_type : String
  discount_amount : Int
  interval : String
  currency : Option String
  duration : String
  duration_in_months : Option Int
  stripe_coupon_id : Option String
  active : Bool
  product : ProductRow
deriving Repr, DecidableEq

/-- Modelled from the spec: the row schema (a DB migration) is not under
src/; the spec's translation table fixes the `discount_type` column's
values to `amount`/`percent`. -/
def OfferRowJSON.ValidDiscountType (r : OfferRowJSON) : Prop :=
  r.discount_type = "amount" ∨ r.discount_type = "percent"

/-- The argument object passed to `Offer.create` by `mapToOffer`
(part_000 lines 107–126). -/
structure OfferCreateProps where
  id : String
  name : String
  code : String
  display_title : String
  display_description : String
  type : String
  amount : Int
  cadence : String
  currency : Option String
  duration : String
  duration_in_months : Option Int
  redemptionCount : Int
  stripe_coupon_id : Option String
  status : String
  tier : Tier
deriving Repr, DecidableEq

/-- Modelled from the spec: `Offer.create` of the missing domain model
builds the entity from the given fields (value-object wrappers
flattened). A loaded offer is not new, its previously loaded code is its
current code, and its code has not changed since load. -/
def Offer.create (props : OfferCreateProps) : Offer :=
  { id := props.id
    name := props.name
    code := props.code
    oldCode := some props.code
    codeChanged := false
    isNew := false
    displayTitle := props.display_title
    displayDescription := props.display_description
    type := props.type
    amount := props.amount
    cadence := props.cadence
    currency := props.currency
    duration := { dtype := props.duration, months := props.duration_in_months }
    redemptionCount := props.redemptionCount
    stripe_coupon_id := props.stripe_coupon_id
    status := props.status
    tier := props.tier }

/-- `OfferRepository.mapToOffer` (part_000 lines 101–127): builds the
domain offer from a row's JSON; `count` is the result of the redemption
count query. -/
def mapToOffer (json : OfferRowJSON) (count : Int) : Offer :=
  Offer.create
    { id := json.id
      name := json.name
      code := json.code
      display_title := json.portal_title
      display_description := json.portal_description
      type := if json.discount_type == "amount" then "fixed" else "percent"
      amount := json.discount_amount
      cadence := json.interval
      currency := json.currency
      duration := json.duration
      duration_in_months := json.duration_in_months
      redemptionCount := count
      stripe_coupon_id := json.stripe_coupon_id
      status := if json.active then "active" else "archived"
      tier := { id := json.product.id, name := json.product.name } }

/-- `OfferModel.findOne` over a stored table of rows: the first row
matching the filter, or nothing when no row matches (the not-found case
resolves to a null model, not an error). -/
def findOne (db : List OfferRowJSON) (p : OfferRowJSON → Bool) :
    Option OfferRowJSON :=
  db.find? p

/-- `OfferRepository.existsByName` (part_000 lines 74–80): a read-only
query returning a boolean; the stored table is returned unchanged to
make the absence of side effects explicit. -/
def existsByName (db : List OfferRowJSON) (name : String) :
    Bool × List OfferRowJSON :=
  match findOne db (fun r => r.name == name) with
  | none => (false, db)
  | some _ => (true, db)

/-- `OfferRepository.existsByCode` (part_000 lines 87–93). -/
def existsByCode (db : List OfferRowJSON) (code : String) :
    Bool × List OfferRowJSON :=
  match findOne db (fun r => r.code == code) with
  | none => (false, db)
  | some _ => (true, db)

/-- One uploaded image record of the images endpoint's response. -/
structure ImageRec where
  url : String
deriving Repr, DecidableEq

/-- The response of `apiService.images.upload({file})`:
`{images: [{url}]}`. -/
structure ImagesResponse where
  images : List ImageRec
deriving Repr, DecidableEq

/-- The outcome of `uploadImage`: a resolved URL, the upload call's own
error propagated unmodified, or the runtime fault from reading
`images[0].url` when the response's image list is empty. -/
inductive UploadResult (ε : Type) where
  | ok (url : String)
  | err (e : ε)
  | typeError
deriving Repr, DecidableEq

/-- `uploadImage` (ServiceProvider.tsx lines 26–29): awaits one call to
the images upload endpoint and returns `response.images[0].url`. The
second component is the list of upload-endpoint calls performed. An
empty `images` array makes the `[0].url` access fault (`typeError`). -/
def uploadImage {F ε : Type} (api : F → Except ε ImagesResponse) (file : F) :
    UploadResult ε × List F :=
  match api file with
  | Except.error e => (UploadResult.err e, [file])
  | Except.ok response =>
    match response.images with
    | [] => (UploadResult.typeError, [file])
    | img :: _ => (UploadResult.ok img.url, [file])

/-! ## General structure of the `save` trace -/

/-- The trace of `save` is the (possibly empty) code-change dispatch
followed by effects none of which is a dispatch. -/
theorem save_trace_split {ε : Type} (offer : Offer)
    (stripe : CouponParams → Except ε CouponData) :
    ∃ tail, (save offer stripe).1 =
      (if offer.codeChanged || offer.isNew then
        [Effect.dispatch
          { offerId := offer.id
            previousCode := offer.oldCode
            currentCode := offer.code }]
       else []) ++ tail ∧
      ∀ e ∈ tail, e.isDispatch = false := by
  unfold save
  by_cases hn : offer.isNew = true
  · cases h : stripe (couponParamsOf offer) <;>
      simp [hn, h, Effect.isDispatch]
  · simp only [Bool.not_eq_true] at hn
    simp [hn, Effect.isDispatch]

/-! ## Concrete fixtures used to instantiate the theorems -/

/-- A concrete existing offer (loaded, code changed since load). -/
def offA : Offer :=
  { id := "offer_1"
    name := "Black Friday"
    code := "bf2023"
    oldCode := some "bf2022"
    codeChanged := true
    isNew := false
    displayTitle := "Black Friday"
    displayDescription := "Save now"
    type := "percent"
    amount := 20
    cadence := "month"
    currency := none
    duration := { dtype := "once", months := none }
    redemptionCount := 0
    stripe_coupon_id := some "sc_1"
    status := "active"
    tier := { id := "tier_1", name := "Gold" } }

/-- A concrete new offer (never persisted, no previously loaded code). -/
def offNew : Offer :=
  { offA with
    isNew := true
    oldCode := none
    codeChanged := false
    stripe_coupon_id := none }

/-- The same offer as `offA` with a different tier id. -/
def offB : Offer :=
  { offA with tier := { id := "tier_2", name := "Gold" } }

/-- A concrete stored row with a fixed-amount discount of 500 usd. -/
def rowC4 : OfferRowJSON :=
  { id := "offer_1"
    name := "Black Friday"
    code := "bf2023"
    portal_title := "Black Friday"
    portal_description := "Save now"
    discount_type := "amount"
    discount_amount := 500
    interval := "month"
    currency := some "usd"
    duration := "once"
    duration_in_months := none
    stripe_coupon_id := some "sc_1"
    active := true
    product := { id := "tier_1", name := "Gold" } }

/-- A Stripe stub whose coupon creation succeeds with id `coupon_123`. -/
def stripeOK : CouponParams → Except String CouponData :=
  fun _ => Except.ok { id := "coupon_123" }

/-- A Stripe stub whose coupon creation fails. -/
def stripeFail : CouponParams → Except String CouponData :=
  fun _ => Except.error "stripe down"

/-! ## Claims -/

/-- C1: for every new offer, `save` performs exactly one external
coupon-creation call, then exactly one row-insert call, in that order
(anything before them is the code-change dispatch), and the inserted
row's `stripe_coupon_id` equals the id returned by the coupon call. -/
theorem save_new_creates_coupon_then_inserts {ε : Type}
    (offer : Offer) (stripe : CouponParams → Except ε CouponData)
    (cd : CouponData)
    (hnew : offer.isNew = true)
    (hok : stripe (couponParamsOf offer) = Except.ok cd) :
    ∃ evs row,
      save offer stripe =
        (evs ++ [Effect.createCoupon (couponParamsOf offer), Effect.add row],
         none) ∧
      (∀ e ∈ evs, e.isDispatch = true) ∧
      row.stripe_coupon_id = some cd.id ∧
      (save offer stripe).1.countP Effect.isCreateCoupon = 1 ∧
      (save offer stripe).1.countP Effect.isAdd = 1 := by
  refine ⟨if offer.codeChanged || offer.isNew then
      [Effect.dispatch
        { offerId := offer.id
          previousCode := offer.oldCode
          currentCode := offer.code }]
    else [],
    { rowDataOf offer with stripe_coupon_id := some cd.id }, ?_, ?_, rfl, ?_, ?_⟩
  · simp [save, hnew, hok]
  · split <;> simp [Effect.isDispatch]
  · simp [save, hnew, hok, List.countP_append, List.countP_cons]
    split <;> simp_all [List.countP, List.countP.go, Effect.isCreateCoupon]
  · simp [save, hnew, hok, List.countP_append, List.countP_cons]
    split <;> simp_all [List.countP, List.countP.go, Effect.isAdd]

/-- C1 witness at the concrete new offer and succeeding Stripe stub. -/
theorem save_new_creates_coupon_then_inserts_witness :
    offNew.isNew = true ∧
    stripeOK (couponParamsOf offNew) = Except.ok { id := "coupon_123" } ∧
    ∃ evs row,
      save offNew stripeOK =
        (evs ++ [Effect.createCoupon (couponParamsOf offNew), Effect.add row],
         none) ∧
      (∀ e ∈ evs, e.isDispatch = true) ∧
      row.stripe_coupon_id = some (CouponData.id { id := "coupon_123" }) ∧
      (save offNew stripeOK).1.countP Effect.isCreateCoupon = 1 ∧
      (save offNew stripeOK).1.countP Effect.isAdd = 1 :=
  ⟨rfl, rfl,
   save_new_creates_coupon_then_inserts offNew stripeOK { id := "coupon_123" }
     rfl rfl⟩

/-- C2: for every existing offer, `save` performs zero external
payment-provider calls and exactly one row-update call (anything before
it is the code-change dispatch), and the update row carries no
`stripe_coupon_id` field, so the external id is set only at creation. -/
theorem save_existing_updates_only {ε : Type}
    (offer : Offer) (stripe : CouponParams → Except ε CouponData)
    (hold : offer.isNew = false) :
    ∃ evs,
      save offer stripe =
        (evs ++ [Effect.edit (rowDataOf offer) (rowDataOf offer).id], none) ∧
      (∀ e ∈ evs, e.isDispatch = true) ∧
      (∀ e ∈ (save offer stripe).1, e.isCreateCoupon = false ∧ e.isAdd = false) ∧
      (save offer stripe).1.countP Effect.isEdit = 1 ∧
      (rowDataOf offer).stripe_coupon_id = none := by
  refine ⟨if offer.codeChanged || offer.isNew then
      [Effect.dispatch
        { offerId := offer.id
          previousCode := offer.oldCode
          currentCode := offer.code }]
    else [], ?_, ?_, ?_, ?_, rfl⟩
  · simp [save, hold]
  · split <;> simp [Effect.isDispatch]
  · simp [save, hold]
    rintro e (⟨-, rfl⟩ | rfl) <;> simp [Effect.isCreateCoupon, Effect.isAdd]
  · simp [save, hold, List.countP_append, List.countP_cons]
    split <;> simp_all [List.countP, List.countP.go, Effect.isEdit]

/-- C2 witness at the concrete existing offer. -/
theorem save_existing_updates_only_witness :
    offA.isNew = false ∧
    ∃ evs,
      save offA stripeOK =
        (evs ++ [Effect.edit (rowDataOf offA) (rowDataOf offA).id], none) ∧
      (∀ e ∈ evs, e.isDispatch = true) ∧
      (∀ e ∈ (save offA stripeOK).1, e.isCreateCoupon = false ∧ e.isAdd = false) ∧
      (save offA stripeOK).1.countP Effect.isEdit = 1 ∧
      (rowDataOf offA).stripe_coupon_id = none :=
  ⟨rfl, save_existing_updates_only offA stripeOK rfl⟩

/-- C3: for every well-formed offer, `save` dispatches a code-change
event iff the offer is new or its code differs from the previously
loaded code; every dispatch comes before every external or persistence
call; and the payload's previous-code field is absent exactly when the
offer is new. -/
theorem save_code_change_event {ε : Type}
    (offer : Offer) (stripe : CouponParams → Except ε CouponData)
    (hwf : offer.WF) :
    ((∃ ev, Effect.dispatch ev ∈ (save offer stripe).1) ↔
      (offer.isNew = true ∨ offer.oldCode ≠ some offer.code)) ∧
    (∃ evs tail, (save offer stripe).1 = evs ++ tail ∧
      (∀ e ∈ evs, e.isDispatch = true) ∧
      (∀ e ∈ tail, e.isDispatch = false)) ∧
    (∀ ev, Effect.dispatch ev ∈ (save offer stripe).1 →
      (ev.previousCode = none ↔ offer.isNew = true)) := by
  obtain ⟨h1, h2⟩ := hwf
  obtain ⟨tail, htr, htail⟩ := save_trace_split offer stripe
  refine ⟨?_, ?_, ?_⟩
  · rw [htr]
    constructor
    · rintro ⟨ev, hev⟩
      rcases List.mem_append.mp hev with hin | hin
      · by_cases hcond : (offer.codeChanged || offer.isNew) = true
        · rcases Bool.or_eq_true_iff.mp hcond with hc | hn
          · exact Or.inr (h2.mp hc).2
          · exact Or.inl hn
        · simp [hcond] at hin
      · exact absurd (htail _ hin) (by simp [Effect.isDispatch])
    · intro h
      have hcond : (offer.codeChanged || offer.isNew) = true := by
        rcases h with hn | hne
        · simp [hn]
        · by_cases hn : offer.isNew = true
          · simp [hn]
          · simp only [Bool.not_eq_true] at hn
            have : offer.codeChanged = true :=
              h2.mpr ⟨by simp [hn], hne⟩
            simp [this]
      refine ⟨{ offerId := offer.id
                previousCode := offer.oldCode
                currentCode := offer.code },
        List.mem_append.mpr (Or.inl ?_)⟩
      rw [if_pos hcond]
      exact List.mem_singleton.mpr rfl
  · exact ⟨_, tail, htr, by split <;> simp [Effect.isDispatch], htail⟩
  · intro ev hev
    rw [htr] at hev
    rcases List.mem_append.mp hev with hin | hin
    · have : ev = { offerId := offer.id
                    previousCode := offer.oldCode
                    currentCode := offer.code } := by
        by_cases hcond : (offer.codeChanged || offer.isNew) = true
        · rw [if_pos hcond] at hin
          simpa using hin
        · rw [if_neg hcond] at hin
          simp at hin
      rw [this]
      exact h1
    · exact absurd (htail _ hin) (by simp [Effect.isDispatch])

/-- C3 witness at a concrete well-formed existing offer whose code
changed since load, with the succeeding Stripe stub. -/
theorem save_code_change_event_witness :
    offA.WF ∧
    (((∃ ev, Effect.dispatch ev ∈ (save offA stripeOK).1) ↔
       (offA.isNew = true ∨ offA.oldCode ≠ some offA.code)) ∧
     (∃ evs tail, (save offA stripeOK).1 = evs ++ tail ∧
       (∀ e ∈ evs, e.isDispatch = true) ∧
       (∀ e ∈ tail, e.isDispatch = false)) ∧
     (∀ ev, Effect.dispatch ev ∈ (save offA stripeOK).1 →
       (ev.previousCode = none ↔ offA.isNew = true))) :=
  ⟨by constructor <;> simp [offA, Offer.WF],
   save_code_change_event offA stripeOK
     (by constructor <;> simp [offA, Offer.WF])⟩

/-- C4: for every row with a valid discount type, mapping it to a domain
offer and back to row data reproduces name, code, portal title and
description, discount type and amount, interval, duration, currency and
the active flag. -/
theorem row_offer_roundtrip (row : OfferRowJSON) (count : Int)
    (hv : row.ValidDiscountType) :
    (rowDataOf (mapToOffer row count)).name = row.name ∧
    (rowDataOf (mapToOffer row count)).code = row.code ∧
    (rowDataOf (mapToOffer row count)).portal_title = row.portal_title ∧
    (rowDataOf (mapToOffer row count)).portal_description =
      row.portal_description ∧
    (rowDataOf (mapToOffer row count)).discount_type = row.discount_type ∧
    (rowDataOf (mapToOffer row count)).discount_amount =
      row.discount_amount ∧
    (rowDataOf (mapToOffer row count)).interval = row.interval ∧
    (rowDataOf (mapToOffer row count)).duration = row.duration ∧
    (rowDataOf (mapToOffer row count)).currency = row.currency ∧
    (rowDataOf (mapToOffer row count)).active = row.active := by
  rcases hv with hv | hv <;>
    cases hact : row.active <;>
      simp [mapToOffer, Offer.create, rowDataOf, hv, hact]

/-- C4 witness: the row fragment `{discount_type: amount,
discount_amount: 500, currency: usd}` maps to the domain fragment
`{type: fixed, amount: 500, currency: usd}` and back to the identical
row fragment, and the full round-trip holds at that row. -/
theorem row_offer_roundtrip_witness :
    rowC4.ValidDiscountType ∧
    (mapToOffer rowC4 0).type = "fixed" ∧
    (mapToOffer rowC4 0).amount = 500 ∧
    (mapToOffer rowC4 0).currency = some "usd" ∧
    (rowDataOf (mapToOffer rowC4 0)).discount_type = "amount" ∧
    (rowDataOf (mapToOffer rowC4 0)).discount_amount = 500 ∧
    (rowDataOf (mapToOffer rowC4 0)).currency = some "usd" ∧
    ((rowDataOf (mapToOffer rowC4 0)).name = rowC4.name ∧
     (rowDataOf (mapToOffer rowC4 0)).code = rowC4.code ∧
     (rowDataOf (mapToOffer rowC4 0)).portal_title = rowC4.portal_title ∧
     (rowDataOf (mapToOffer rowC4 0)).portal_description =
       rowC4.portal_description ∧
     (rowDataOf (mapToOffer rowC4 0)).discount_type = rowC4.discount_type ∧
     (rowDataOf (mapToOffer rowC4 0)).discount_amount =
       rowC4.discount_amount ∧
     (rowDataOf (mapToOffer rowC4 0)).interval = rowC4.interval ∧
     (rowDataOf (mapToOffer rowC4 0)).duration = rowC4.duration ∧
     (rowDataOf (mapToOffer rowC4 0)).currency = rowC4.currency ∧
     (rowDataOf (mapToOffer rowC4 0)).active = rowC4.active) :=
  ⟨Or.inl rfl, rfl, rfl, rfl, rfl, rfl, rfl,
   row_offer_roundtrip rowC4 0 (Or.inl rfl)⟩

/-- C5: in the effective `getAll` query, every field other than `status`
is dropped (wherever it appears in the filter), and a `status` field is
translated in place to the boolean `active` column: `active` becomes
`true` and `archived` becomes `false`. -/
theorem getAll_effective_query (k : String) (v : QVal) (f₁ f₂ : Query)
    (hk : k ≠ "status") :
    mongoTransformer (f₁ ++ (k, v) :: f₂) = mongoTransformer (f₁ ++ f₂) ∧
    mongoTransformer (f₁ ++ ("status", QVal.str "active") :: f₂) =
      mongoTransformer f₁ ++ ("active", QVal.bool true) :: mongoTransformer f₂ ∧
    mongoTransformer (f₁ ++ ("status", QVal.str "archived") :: f₂) =
      mongoTransformer f₁ ++ ("active", QVal.bool false) :: mongoTransformer f₂ := by
  refine ⟨?_, ?_, ?_⟩ <;>
    simp [mongoTransformer, statusTransformer, rejectNonStatusTransformer,
      mapQuery, mapKeyValues, List.filterMap_append, hk]

/-- C5 witness: a filter holding a non-status field and a status field;
the non-status field is dropped and `{status: archived}` becomes
`{active: false}`. -/
theorem getAll_effective_query_witness :
    ("name" : String) ≠ "status" ∧
    (mongoTransformer ([] ++ ("name", QVal.str "x") ::
        [("status", QVal.str "archived")]) =
      mongoTransformer ([] ++ [("status", QVal.str "archived")]) ∧
     mongoTransformer ([] ++ ("status", QVal.str "active") ::
        [("status", QVal.str "archived")]) =
      mongoTransformer [] ++ ("active", QVal.bool true) ::
        mongoTransformer [("status", QVal.str "archived")] ∧
     mongoTransformer ([] ++ ("status", QVal.str "archived") ::
        [("status", QVal.str "archived")]) =
      mongoTransformer [] ++ ("active", QVal.bool false) ::
        mongoTransformer [("status", QVal.str "archived")]) :=
  ⟨by decide,
   getAll_effective_query "name" (QVal.str "x")
     [] [("status", QVal.str "archived")] (by decide)⟩

/-- C6: for every new offer, if the external coupon-creation call fails
then `save` performs no row insert (and no row update), and the failure
propagates unmodified to the caller. -/
theorem save_coupon_failure_no_insert {ε : Type}
    (offer : Offer) (stripe : CouponParams → Except ε CouponData) (e : ε)
    (hnew : offer.isNew = true)
    (hfail : stripe (couponParamsOf offer) = Except.error e) :
    (save offer stripe).2 = some e ∧
    ∀ eff ∈ (save offer stripe).1, eff.isAdd = false ∧ eff.isEdit = false := by
  refine ⟨by simp [save, hnew, hfail], ?_⟩
  simp [save, hnew, hfail]
  simp [Effect.isAdd, Effect.isEdit]

/-- C6 witness at the concrete new offer and failing Stripe stub. -/
theorem save_coupon_failure_no_insert_witness :
    offNew.isNew = true ∧
    stripeFail (couponParamsOf offNew) = Except.error "stripe down" ∧
    ((save offNew stripeFail).2 = some "stripe down" ∧
     ∀ eff ∈ (save offNew stripeFail).1,
       eff.isAdd = false ∧ eff.isEdit = false) :=
  ⟨rfl, rfl,
   save_coupon_failure_no_insert offNew stripeFail "stripe down" rfl rfl⟩

/-- C7 counterexample: `save` does write tier-derived data back to the
row — the written row's `product_id` is the offer's `tier.id`, and two
offers differing only in `tier.id` produce different persisted rows. -/
theorem save_writes_tier_id :
    (rowDataOf offA).product_id = offA.tier.id ∧
    offA.tier.id = "tier_1" ∧
    offB = { offA with tier := { id := "tier_2", name := "Gold" } } ∧
    Effect.edit (rowDataOf offA) (rowDataOf offA).id ∈ (save offA stripeOK).1 ∧
    (save offA stripeOK).1 ≠ (save offB stripeOK).1 := by
  refine ⟨rfl, rfl, rfl, ?_, ?_⟩ <;> decide

/-- C7 amended: the tier association reaches the row only as the
`product_id` foreign key taken from `tier.id`; the tier's name (the
joined product row's data) is never written back — `save` is invariant
under changes to `tier.name`. -/
theorem save_tier_name_not_written {ε : Type}
    (offer : Offer) (n : String)
    (stripe : CouponParams → Except ε CouponData) :
    save { offer with tier := { offer.tier with name := n } } stripe =
      save offer stripe ∧
    (rowDataOf offer).product_id = offer.tier.id :=
  ⟨rfl, rfl⟩

/-- C8: `existsByName` and `existsByCode` resolve to `false` when no
matching row is stored (the not-found case becomes a boolean, not an
error), resolve to `true` when a matching row is stored, and leave the
stored state unchanged. -/
theorem existsBy_semantics (db : List OfferRowJSON) (name code : String) :
    ((∀ r ∈ db, r.name ≠ name) → existsByName db name = (false, db)) ∧
    ((∃ r ∈ db, r.name = name) → (existsByName db name).1 = true) ∧
    (existsByName db name).2 = db ∧
    ((∀ r ∈ db, r.code ≠ code) → existsByCode db code = (false, db)) ∧
    ((∃ r ∈ db, r.code = code) → (existsByCode db code).1 = true) ∧
    (existsByCode db code).2 = db := by
  refine ⟨?_, ?_, ?_, ?_, ?_, ?_⟩
  · intro habs
    have : findOne db (fun r => r.name == name) = none := by
      simp only [findOne, List.find?_eq_none, beq_iff_eq]
      exact habs
    simp [existsByName, this]
  · rintro ⟨r, hr, hname⟩
    have hs : (findOne db (fun r => r.name == name)).isSome := by
      rw [findOne, List.find?_isSome]
      exact ⟨r, hr, by simp [hname]⟩
    obtain ⟨m, hm⟩ := Option.isSome_iff_exists.mp hs
    simp [existsByName, hm]
  · simp [existsByName]
    cases findOne db (fun r => r.name == name) <;> rfl
  · intro habs
    have : findOne db (fun r => r.code == code) = none := by
      simp only [findOne, List.find?_eq_none, beq_iff_eq]
      exact habs
    simp [existsByCode, this]
  · rintro ⟨r, hr, hcode⟩
    have hs : (findOne db (fun r => r.code == code)).isSome := by
      rw [findOne, List.find?_isSome]
      exact ⟨r, hr, by simp [hcode]⟩
    obtain ⟨m, hm⟩ := Option.isSome_iff_exists.mp hs
    simp [existsByCode, hm]
  · simp [existsByCode]
    cases findOne db (fun r => r.code == code) <;> rfl

/-- C8 witness: in a one-row table, an absent name resolves to `false`
with the table unchanged, and the stored name and code resolve to
`true`. -/
theorem existsBy_semantics_witness :
    existsByName [rowC4] "absent" = (false, [rowC4]) ∧
    (existsByName [rowC4] "Black Friday").1 = true ∧
    (existsByCode [rowC4] "bf2023").1 = true :=
  ⟨(existsBy_semantics [rowC4] "absent" "nocode").1 (by decide),
   (existsBy_semantics [rowC4] "Black Friday" "bf2023").2.1 (by decide),
   (existsBy_semantics [rowC4] "Black Friday" "bf2023").2.2.2.2.1 (by decide)⟩

/-- An images-endpoint stub resolving with one uploaded image. -/
def apiOK : String → Except String ImagesResponse :=
  fun _ => Except.ok { images := [{ url := "https://example.com/a.png" }] }

/-- An images-endpoint stub resolving with an empty images array. -/
def apiEmpty : String → Except String ImagesResponse :=
  fun _ => Except.ok { images := [] }

/-- C9: `uploadImage` performs exactly one upload call and resolves to
the URL of the first image of the response; an upload failure propagates
unmodified. -/
theorem uploadImage_contract {F ε : Type} (api : F → Except ε ImagesResponse)
    (file : F) (r : ImagesResponse) (e : ε) (img : ImageRec)
    (rest : List ImageRec) :
    (api file = Except.ok r → r.images = img :: rest →
      uploadImage api file = (UploadResult.ok img.url, [file])) ∧
    (api file = Except.error e →
      uploadImage api file = (UploadResult.err e, [file])) := by
  constructor
  · intro hok himg
    simp [uploadImage, hok, himg]
  · intro he
    simp [uploadImage, he]

/-- C9 witness at a concrete file and the one-image endpoint stub. -/
theorem uploadImage_contract_witness :
    apiOK "a.png" =
      Except.ok { images := [{ url := "https://example.com/a.png" }] } ∧
    uploadImage apiOK "a.png" =
      (UploadResult.ok "https://example.com/a.png", ["a.png"]) :=
  ⟨rfl,
   (uploadImage_contract apiOK "a.png"
      { images := [{ url := "https://example.com/a.png" }] } "err"
      { url := "https://example.com/a.png" } []).1 rfl rfl⟩

/-- C10: when the upload call succeeds with an empty images array,
`uploadImage` faults on the `images[0].url` access instead of resolving;
it resolves to a URL only when the response holds at least one image. -/
theorem uploadImage_empty_images {F ε : Type}
    (api : F → Except ε ImagesResponse) (file : F) (r : ImagesResponse)
    (hok : api file = Except.ok r) :
    (r.images = [] → (uploadImage api file).1 = UploadResult.typeError) ∧
    (∀ u, (uploadImage api file).1 = UploadResult.ok u → r.images ≠ []) := by
  constructor
  · intro hempty
    simp [uploadImage, hok, hempty]
  · intro u hu hempty
    simp [uploadImage, hok, hempty] at hu

/-- C10 witness at the empty-images endpoint stub. -/
theorem uploadImage_empty_images_witness :
    apiEmpty "a.png" = Except.ok { images := [] } ∧
    (uploadImage apiEmpty "a.png").1 = UploadResult.typeError :=
  ⟨rfl,
   (uploadImage_empty_images apiEmpty "a.png" { images := [] } rfl).1 rfl⟩

end Ghost
